import Mathlib

/-!
Verification of the ATI Axia80 ethernet force-torque sensor driver
(`ati_axia80_ethernet_python/ft_sensor.py`, class `ForceTorqueSensorDriver`).

The driver is embedded shallowly: bytes are `Nat` values below 256, machine
integers are `Nat`/`Int` with explicit two's-complement conversion, Python
floats are modelled as `ℚ`, and Python exceptions are modelled with
`Except PyError`.  Each definition cites the source lines it embeds.
-/

namespace AtiAxia

/-- Python exceptions that the driver code can raise on the modelled paths. -/
inductive PyError where
  /-- the `ValueError("Calibration data not available or invalid")` raised at
  line 33 of `__init__` (the spec's `InvalidCalibration`). -/
  | invalidCalibration
  /-- an `AttributeError`, e.g. from calling `.get` on `None`. -/
  | attributeError
  /-- Python `ZeroDivisionError`. -/
  | zeroDivisionError
  /-- the `TimeoutError("Timeout waiting for first reading")` raised at line 92. -/
  | timeoutError
  /-- the spec's `ErrorKind::NotRunning` (never raised by the source code). -/
  | notRunning
deriving DecidableEq

/-- Big-endian 16-bit value of two bytes. -/
def beU16 (b0 b1 : Nat) : Nat := b0 * 256 + b1

/-- Big-endian 32-bit unsigned value of four bytes (struct format `!I`). -/
def beU32 (b0 b1 b2 b3 : Nat) : Nat := ((b0 * 256 + b1) * 256 + b2) * 256 + b3

/-- Two's-complement reinterpretation of an unsigned 32-bit value as a signed
one (struct format `!i`). -/
def toI32 (u : Nat) : Int :=
  if u < 2147483648 then (u : Int) else (u : Int) - 4294967296

/-- Big-endian two-byte serialization of a 16-bit value (struct format `!H`). -/
def beBytes16 (v : Nat) : List Nat := [v / 256 % 256, v % 256]

/-- Big-endian four-byte serialization of a 32-bit value (struct format `!I`). -/
def beBytes32 (v : Nat) : List Nat :=
  [v / 16777216 % 256, v / 65536 % 256, v / 256 % 256, v % 256]

/-- Big-endian four-byte two's-complement serialization of a signed 32-bit
value (struct format `!i`). -/
def i32bytes (v : Int) : List Nat := beBytes32 (v % 4294967296).toNat

/-- `struct.pack('!HHI', header, command, sample_count)`: the 8-byte command
datagram layout (line 44). -/
def packHHI (header command sample_count : Nat) : List Nat :=
  beBytes16 header ++ beBytes16 command ++ beBytes32 sample_count

/-- `_send_command` (lines 35-45): the bytes of the datagram sent to the
sensor, with the constant header `0x1234`. -/
def send_command (command : Nat) (sample_count : Nat) : List Nat :=
  packHHI 0x1234 command sample_count

/-- The reading dictionary built by `_read_loop` (lines 58-69): nine decoded
integer fields plus the caller-measured receive latency `delta_t`. -/
structure RawReading where
  rdt_sequence : Nat
  ft_sequence : Nat
  status : Nat
  Fx : Int
  Fy : Int
  Fz : Int
  Tx : Int
  Ty : Int
  Tz : Int
  delta_t : ℚ
deriving DecidableEq

/-- The `k`-th big-endian 32-bit word of a byte buffer. -/
def word32 (data : List Nat) (k : Nat) : Nat :=
  beU32 (data.getD (4 * k) 0) (data.getD (4 * k + 1) 0)
    (data.getD (4 * k + 2) 0) (data.getD (4 * k + 3) 0)

/-- The decode step of `_read_loop` (lines 56-69): if the received buffer has
exactly 36 bytes, `struct.unpack('!IIIiiiiii', data[:36])` yields three
unsigned and six signed big-endian 32-bit fields in the fixed order
`rdt_sequence, ft_sequence, status, Fx, Fy, Fz, Tx, Ty, Tz`; otherwise the
packet is rejected (only a warning is printed, line 73).  `delta_t` is the
receive latency measured by the caller (lines 53-55, 68). -/
def decodePacket (data : List Nat) (delta_t : ℚ) : Option RawReading :=
  if data.length = 36 then
    some
      { rdt_sequence := word32 data 0
        ft_sequence := word32 data 1
        status := word32 data 2
        Fx := toI32 (word32 data 3)
        Fy := toI32 (word32 data 4)
        Fz := toI32 (word32 data 5)
        Tx := toI32 (word32 data 6)
        Ty := toI32 (word32 data 7)
        Tz := toI32 (word32 data 8)
        delta_t := delta_t }
  else none

/-- One outcome of the blocking `self.socket.recvfrom(1024)` call inside the
read loop: a datagram (with its measured receive latency), a
`socket.timeout`, or some other exception. -/
inductive RecvEvent where
  | packet (data : List Nat) (delta_t : ℚ)
  | timeout
  | ioFault
deriving DecidableEq

/-- The state the read loop can affect: the shared latest-reading slot, and
the list of `(command, sample_count)` datagrams sent from inside the loop
body.  The body of `_read_loop` (lines 51-77) contains no `_send_command`
call, so no branch of `readLoopIter` appends to `sent`. -/
structure LoopState where
  latest_reading : Option RawReading
  sent : List (Nat × Nat)
deriving DecidableEq

/-- One iteration of the `while self.running` body of `_read_loop`
(lines 51-77): a valid 36-byte packet is decoded and published into the slot
(lines 56-71, under the lock); a wrong-sized packet only triggers a warning
(line 73); a `socket.timeout` hits `continue` (lines 74-75); any other
exception is printed and the loop continues (lines 76-77). -/
def readLoopIter (s : LoopState) (e : RecvEvent) : LoopState :=
  match e with
  | RecvEvent.packet data dt =>
    match decodePacket data dt with
    | some r => { s with latest_reading := some r }
    | none => s
  | RecvEvent.timeout => s
  | RecvEvent.ioFault => s

/-- The `while self.running` loop of `_read_loop` (line 51), run over a finite
window of receive outcomes with the `running` flag held fixed: if the flag is
cleared the loop performs no iteration at all. -/
def readLoop (running : Bool) (s : LoopState) (events : List RecvEvent) : LoopState :=
  match events with
  | [] => s
  | e :: rest => if running then readLoop running (readLoopIter s e) rest else s

/-- The driver fields relevant to the modelled behaviour: the two calibration
divisors stored by `__init__` (lines 30-31), the `running` flag (line 22) and
the shared latest-reading slot (line 23). -/
structure Driver where
  calcpf : Int
  calcpt : Int
  running : Bool
  latest_reading : Option RawReading
deriving DecidableEq

/-- The scaled reading dictionary built by `get_latest_reading`
(lines 121-132): the three force components divided by `calcpf`, the three
torque components by `calcpt`, the remaining fields copied unchanged. -/
structure ScaledReading where
  rdt_sequence : Nat
  ft_sequence : Nat
  status : Nat
  Fx : ℚ
  Fy : ℚ
  Fz : ℚ
  Tx : ℚ
  Ty : ℚ
  Tz : ℚ
  delta_t : ℚ
deriving DecidableEq

/-- Which dictionary `get_latest_reading` returns when a reading is present:
the freshly built scaled dictionary (lines 121-132), or the stored raw
reading itself (line 134). -/
inductive RLResult where
  | raw (r : RawReading)
  | scaled (s : ScaledReading)
deriving DecidableEq

/-- The scaled dictionary of lines 121-132 as a function of the divisors and
the stored raw reading. -/
def scaleReading (pf pt : Int) (r : RawReading) : ScaledReading :=
  { rdt_sequence := r.rdt_sequence
    ft_sequence := r.ft_sequence
    status := r.status
    Fx := (r.Fx : ℚ) / (pf : ℚ)
    Fy := (r.Fy : ℚ) / (pf : ℚ)
    Fz := (r.Fz : ℚ) / (pf : ℚ)
    Tx := (r.Tx : ℚ) / (pt : ℚ)
    Ty := (r.Ty : ℚ) / (pt : ℚ)
    Tz := (r.Tz : ℚ) / (pt : ℚ)
    delta_t := r.delta_t }

/-- `get_latest_reading` (lines 108-134): under the lock, returns `None` when
the slot is empty; otherwise, if both divisors are truthy (Python `if
self.calcpf and self.calcpt`, i.e. both nonzero), returns the scaled
dictionary, else returns the raw stored reading unchanged.  No state check is
performed and no exception is raised on any path, so the result type's error
case is never produced. -/
def get_latest_reading (d : Driver) : Except PyError (Option RLResult) :=
  match d.latest_reading with
  | none => Except.ok none
  | some r =>
    if d.calcpf ≠ 0 ∧ d.calcpt ≠ 0 then
      Except.ok (some (RLResult.scaled (scaleReading d.calcpf d.calcpt r)))
    else
      Except.ok (some (RLResult.raw r))

/-- Python `/` on integers: raises `ZeroDivisionError` on a zero divisor,
otherwise yields the exact quotient (floats modelled as `ℚ`). -/
def pyDiv (n d : Int) : Except PyError ℚ :=
  if d = 0 then Except.error PyError.zeroDivisionError
  else Except.ok ((n : ℚ) / (d : ℚ))

/-- `get_latest_wrench` (lines 136-147): under the lock, returns `None` when
the slot is empty; otherwise builds the six-element list of divided
components, dividing unconditionally (the six divisions are evaluated in
list order, so the first zero divisor raises `ZeroDivisionError`). -/
def get_latest_wrench (dr : Driver) : Except PyError (Option (List ℚ)) :=
  match dr.latest_reading with
  | none => Except.ok none
  | some r =>
    (pyDiv r.Fx dr.calcpf).bind fun fx =>
    (pyDiv r.Fy dr.calcpf).bind fun fy =>
    (pyDiv r.Fz dr.calcpf).bind fun fz =>
    (pyDiv r.Tx dr.calcpt).bind fun tx =>
    (pyDiv r.Ty dr.calcpt).bind fun ty =>
    (pyDiv r.Tz dr.calcpt).bind fun tz =>
    Except.ok (some [fx, fy, fz, tx, ty, tz])

/-- Observable actions performed by `start` and `stop`, in program order. -/
inductive Action where
  | setRunning (b : Bool)
  | send (command sample_count : Nat)
  | spawnThread
  | joinThread
  | clearSlot
deriving DecidableEq

/-- `start` (lines 79-93) in the case where the spawned read loop publishes
nothing during the polling wait: line 83 sets `self.running = True`, line 84
sends the start-streaming command `(0x0002, 0)`, lines 85-86 spawn the read
thread; the slot is never written by `start` itself.  The polling loop
(lines 88-93) then returns at once if a reading is already present, and
otherwise — with nothing ever published — raises `TimeoutError` once
`timeout` elapses.  The second component is the ordered action trace of
lines 83-86. -/
def start_noPublish (d : Driver) : (Except PyError Driver) × List Action :=
  let d1 : Driver := { d with running := true }
  ((if d1.latest_reading = none then Except.error PyError.timeoutError
    else Except.ok d1),
   [Action.setRunning true, Action.send 2 0, Action.spawnThread])

/-- `stop` (lines 95-106): line 99 clears `self.running`, line 100 sends the
stop-streaming command `(0x0000, 0)` (default `sample_count=0`), lines
101-102 join the read thread, lines 105-106 clear the slot under the lock.
First component: the resulting driver state; second: the ordered action
trace of those lines. -/
def stop (d : Driver) : Driver × List Action :=
  ({ d with running := false, latest_reading := none },
   [Action.setRunning false, Action.send 0 0, Action.joinThread, Action.clearSlot])

/-- Modelled from the spec: the operation order that §4.3 prescribes for
`stop()` — signal the flag, wait for the thread, then send the stop command,
then clear the slot. -/
def stopOrderSpec : List Action :=
  [Action.setRunning false, Action.joinThread, Action.send 0 0, Action.clearSlot]

/-- One syntactic access to `self.latest_reading` in `ft_sensor.py`: the
enclosing method, the line of the access (for a region under one
`with self.lock`, its first access line), whether it writes the slot, and
whether it occurs inside `with self.lock`. -/
structure SlotAccess where
  fn : String
  line : Nat
  isWrite : Bool
  locked : Bool
deriving DecidableEq

/-- Every access to `self.latest_reading` in the source: the publish in
`_read_loop` (lines 70-71, locked), the polling check `while
self.latest_reading is None` in `start` (line 90, NOT locked), the clear in
`stop` (lines 105-106, locked), and the reads in `get_latest_reading`
(lines 115-134, locked) and `get_latest_wrench` (lines 137-147, locked). -/
def slotAccesses : List SlotAccess :=
  [ { fn := "_read_loop", line := 71, isWrite := true, locked := true },
    { fn := "start", line := 90, isWrite := false, locked := false },
    { fn := "stop", line := 106, isWrite := true, locked := true },
    { fn := "get_latest_reading", line := 116, isWrite := false, locked := true },
    { fn := "get_latest_wrench", line := 138, isWrite := false, locked := true } ]

/-- Digit-string value, as Python `int` computes it on a digit sequence. -/
def digitsVal (cs : List Char) : Nat :=
  cs.foldl (fun n c => n * 10 + (c.toNat - 48)) 0

/-- Python `int(s)` on a string, restricted to the forms relevant here: an
optional sign followed by one or more decimal digits succeeds, anything else
raises `ValueError` (modelled as `none`). -/
def pyIntStr (s : String) : Option Int :=
  match s.data with
  | [] => none
  | c :: rest =>
    if c = '-' then
      if rest ≠ [] ∧ rest.all Char.isDigit then some (-(digitsVal rest : Int)) else none
    else if c = '+' then
      if rest ≠ [] ∧ rest.all Char.isDigit then some ((digitsVal rest : Int)) else none
    else if (c :: rest).all Char.isDigit then some ((digitsVal (c :: rest) : Int)) else none

/-- Python `dict.get`: the value stored under a key, if any. -/
def lookupTag (cal : List (String × String)) (k : String) : Option String :=
  (cal.find? (fun p => p.1 = k)).map (fun p => p.2)

/-- The calibration part of `__init__` (lines 26-33), as a function of the
result of `get_calibration_data()` — `none` when the HTTP fetch failed
(lines 187-189 return `None`), otherwise the tag-to-text mapping.  When the
fetch failed, `calibration.get('calcpf')` at line 30 raises `AttributeError`
(`None` has no attribute `get`), which the `except (ValueError, TypeError)`
at line 32 does NOT catch.  A missing key makes `int(None)` raise
`TypeError`, and a non-numeric text makes `int` raise `ValueError`; both are
caught and re-raised as the `ValueError` of line 33.  On success the two
divisors are stored. -/
def initCalib (fetch : Option (List (String × String))) : Except PyError (Int × Int) :=
  match fetch with
  | none => Except.error PyError.attributeError
  | some cal =>
    match lookupTag cal "calcpf" with
    | none => Except.error PyError.invalidCalibration
    | some spf =>
      match pyIntStr spf with
      | none => Except.error PyError.invalidCalibration
      | some pf =>
        match lookupTag cal "calcpt" with
        | none => Except.error PyError.invalidCalibration
        | some spt =>
          match pyIntStr spt with
          | none => Except.error PyError.invalidCalibration
          | some pt => Except.ok (pf, pt)

/-- Big-endian serialization of the nine telemetry fields in the wire order
of spec §6 (`uint32 rdtSequence, uint32 ftSequence, uint32 status, int32
Fx..Tz`); used to state that the decoder inverts exactly this layout. -/
def encodeTelemetry (rdt ft st : Nat) (fx fy fz tx ty tz : Int) : List Nat :=
  beBytes32 rdt ++ beBytes32 ft ++ beBytes32 st ++
  i32bytes fx ++ i32bytes fy ++ i32bytes fz ++
  i32bytes tx ++ i32bytes ty ++ i32bytes tz

/-! ## Helper lemmas -/

/-- A list of length `n + 1` is a cons cell whose tail has length `n`. -/
lemma exists_cons_of_len (l : List Nat) (n : Nat) (h : l.length = n + 1) :
    ∃ a t, l = a :: t ∧ t.length = n := by
  cases l with
  | nil => simp at h
  | cons a t => exact ⟨a, t, rfl, by simpa using h⟩

/-- Serializing a 32-bit unsigned value recovers its four big-endian bytes. -/
lemma beBytes32_beU32 (a b c d : Nat) (ha : a < 256) (hb : b < 256)
    (hc : c < 256) (hd : d < 256) :
    beBytes32 (beU32 a b c d) = [a, b, c, d] := by
  simp only [beBytes32, beU32, List.cons.injEq, and_true]
  omega

/-- A 32-bit unsigned value of four bytes is below `2 ^ 32`. -/
lemma beU32_lt (a b c d : Nat) (ha : a < 256) (hb : b < 256)
    (hc : c < 256) (hd : d < 256) :
    beU32 a b c d < 4294967296 := by
  simp only [beU32]
  omega

/-- Serializing the signed reinterpretation of a 32-bit value produces the
same bytes as serializing the unsigned value. -/
lemma i32bytes_toI32 (u : Nat) (hu : u < 4294967296) :
    i32bytes (toI32 u) = beBytes32 u := by
  unfold i32bytes toI32
  split_ifs with h
  · congr 1
    omega
  · congr 1
    omega

/-- Leading receive timeouts leave the read loop exactly where it was. -/
lemma readLoop_replicate_timeout (n : Nat) (s : LoopState) (l : List RecvEvent) :
    readLoop true s (List.replicate n RecvEvent.timeout ++ l) = readLoop true s l := by
  induction n generalizing s with
  | zero => rfl
  | succ m ih =>
    simp only [List.replicate, List.cons_append, readLoop, if_true, readLoopIter]
    exact ih s

/-! ## C6 — wrong-sized packets are discarded and the slot is untouched -/

/-- C6: for every received buffer whose length is not exactly 36 bytes, the
loop iteration rejects the packet and leaves the whole loop state — in
particular the shared latest-reading slot — unchanged, and the loop keeps
processing the subsequent receive outcomes exactly as if the packet had not
arrived (the rejection is not fatal). -/
theorem bad_size_discarded_slot_unchanged (s : LoopState) (buf : List Nat)
    (dt : ℚ) (h : buf.length ≠ 36) :
    readLoopIter s (RecvEvent.packet buf dt) = s ∧
    ∀ rest, readLoop true s (RecvEvent.packet buf dt :: rest) = readLoop true s rest := by
  have hd : decodePacket buf dt = none := by
    simp [decodePacket, h]
  constructor
  · simp [readLoopIter, hd]
  · intro rest
    simp [readLoop, readLoopIter, hd]

/-- Witness for C6 at a 3-byte buffer and an occupied slot. -/
theorem bad_size_discarded_slot_unchanged_witness :
    readLoopIter ⟨some ⟨1, 2, 3, 4, 5, 6, 7, 8, 9, 0⟩, []⟩
      (RecvEvent.packet [1, 2, 3] 0) = ⟨some ⟨1, 2, 3, 4, 5, 6, 7, 8, 9, 0⟩, []⟩ :=
  (bad_size_discarded_slot_unchanged ⟨some ⟨1, 2, 3, 4, 5, 6, 7, 8, 9, 0⟩, []⟩
    [1, 2, 3] 0 (by decide)).1

/-! ## C4 — accessors in the Idle state -/

/-- C4 counterexample: on the Idle driver (constructed state: `running`
false, empty slot, divisors 1000000 and 10000000), `get_latest_reading` and
`get_latest_wrench` both return the value `None` successfully instead of
failing with a `NotRunning` error. -/
theorem idle_accessors_return_none_cex :
    get_latest_reading ⟨1000000, 10000000, false, none⟩ = Except.ok none ∧
    get_latest_wrench ⟨1000000, 10000000, false, none⟩ = Except.ok none ∧
    (Except.ok (none : Option RLResult) : Except PyError (Option RLResult)) ≠
      Except.error PyError.notRunning := by
  refine ⟨rfl, rfl, ?_⟩
  intro h
  exact Except.noConfusion h

/-- C4 amended: the accessors perform no driver-state check at all; whenever
the slot is empty — which is the case in every Idle state, after construction
or after `stop()` — both return `None` successfully rather than failing with
`NotRunning`. -/
theorem accessors_no_state_check (pf pt : Int) (run : Bool) :
    get_latest_reading ⟨pf, pt, run, none⟩ = Except.ok none ∧
    get_latest_wrench ⟨pf, pt, run, none⟩ = Except.ok none :=
  ⟨rfl, rfl⟩

/-! ## C5 — what stop() does, and in which order -/

/-- C5 counterexample: the action trace of `stop()` is not the trace the
claim prescribes — the source sends the stop-streaming command before
joining the reader thread, not after. -/
theorem stop_order_cex :
    (stop ⟨1, 1, true, none⟩).2 ≠ stopOrderSpec ∧
    (stop ⟨1, 1, true, none⟩).2 =
      [Action.setRunning false, Action.send 0 0, Action.joinThread, Action.clearSlot] := by
  constructor
  · decide
  · rfl

/-- C5 amended: `stop()` performs, in this order: clear the cooperative
cancellation flag, send the stop-streaming command (code 0x0000), join the
loop thread, clear the shared slot; afterwards the driver is Idle (`running`
false, slot empty), and the read loop performs no iteration once the flag is
cleared, so the join — and hence a `start()` immediately followed by
`stop()` with no packets arriving — returns without deadlock. -/
theorem stop_signal_send_join_clear (d : Driver) (s : LoopState)
    (events : List RecvEvent) :
    (stop d).2 =
      [Action.setRunning false, Action.send 0 0, Action.joinThread, Action.clearSlot] ∧
    (stop d).1.running = false ∧
    (stop d).1.latest_reading = none ∧
    readLoop false s events = s := by
  refine ⟨rfl, rfl, rfl, ?_⟩
  cases events with
  | nil => rfl
  | cons e rest => simp [readLoop]

/-! ## C9 — locking discipline of the shared slot -/

/-- C9 counterexample: not every access to the shared latest-reading slot is
inside the lock — the polling check in `start` (line 90) reads the slot
without holding it. -/
theorem slot_access_unlocked_cex :
    ¬ (∀ a ∈ slotAccesses, a.locked = true) ∧
    (⟨"start", 90, false, false⟩ : SlotAccess) ∈ slotAccesses := by
  constructor
  · decide
  · decide

/-- C9 amended: every access to the shared latest-reading slot — the publish
in the read loop, the clear in `stop`, and the reads in both accessors — is
inside a `with self.lock` critical section covering the whole reading
structure, with the single exception of the polling check in `start`, which
reads the slot without the lock. -/
theorem slot_access_locked_except_start_poll (a : SlotAccess)
    (hmem : a ∈ slotAccesses) (hfn : a.fn ≠ "start") : a.locked = true := by
  revert hfn
  fin_cases hmem <;> simp

/-- Witness for C9 at the read-loop publish site. -/
theorem slot_access_locked_except_start_poll_witness :
    (⟨"_read_loop", 71, true, true⟩ : SlotAccess).locked = true :=
  slot_access_locked_except_start_poll ⟨"_read_loop", 71, true, true⟩
    (by decide) (by decide)

/-! ## C8 — calibration fetch failure in the constructor -/

/-- C8: when the calibration fetch fails entirely (`get_calibration_data`
returns `None`), the constructor does not fail with the `InvalidCalibration`
`ValueError` of line 33 — `calibration.get('calcpf')` raises an
`AttributeError` that the `except (ValueError, TypeError)` clause does not
catch.  The other cases do behave as claimed: an absent or non-numeric field
yields `InvalidCalibration`, and two numeric fields are stored as the
divisors. -/
theorem init_fetch_failure_attributeError :
    initCalib none = Except.error PyError.attributeError ∧
    (Except.error PyError.attributeError : Except PyError (Int × Int)) ≠
      Except.error PyError.invalidCalibration ∧
    initCalib (some []) = Except.error PyError.invalidCalibration ∧
    initCalib (some [("calcpf", "abc"), ("calcpt", "10000000")]) =
      Except.error PyError.invalidCalibration ∧
    initCalib (some [("calcpf", "1000000")]) = Except.error PyError.invalidCalibration ∧
    initCalib (some [("calcpf", "1000000"), ("calcpt", "10000000")]) =
      Except.ok (1000000, 10000000) := by
  refine ⟨rfl, ?_, rfl, rfl, rfl, rfl⟩
  intro h
  injection h with h2
  exact PyError.noConfusion h2

/-! ## C2 — start() and the shared slot -/

/-- C2 counterexample: calling `start()` on a driver whose slot still holds a
prior-session reading does not clear the slot — the polling wait finds the
slot non-empty at once, `start()` succeeds, and `get_latest_reading` then
returns that prior reading (scaled). -/
theorem start_does_not_clear_slot_cex :
    (start_noPublish ⟨2, 5, false, some ⟨1, 2, 3, 4, 0, 0, 10, 0, 0, 0⟩⟩).1 =
      Except.ok ⟨2, 5, true, some ⟨1, 2, 3, 4, 0, 0, 10, 0, 0, 0⟩⟩ ∧
    get_latest_reading ⟨2, 5, true, some ⟨1, 2, 3, 4, 0, 0, 10, 0, 0, 0⟩⟩ =
      Except.ok (some (RLResult.scaled ⟨1, 2, 3, 2, 0, 0, 2, 0, 0, 0⟩)) := by
  constructor
  · rfl
  · norm_num [get_latest_reading, scaleReading, ScaledReading.mk.injEq]

/-- C2 amended: `start()` never writes the shared slot, so a successful
`start()` leaves whatever reading was present; the slot is instead cleared by
`stop()`, so a `start()` that follows a completed `stop()` begins with an
empty slot (and, with nothing published, can only end in `TimeoutError`, not
in returning stale data). -/
theorem start_preserves_slot_stop_clears (d d1 : Driver)
    (h : (start_noPublish d).1 = Except.ok d1) :
    d1.latest_reading = d.latest_reading ∧
    (stop d).1.latest_reading = none ∧
    (start_noPublish (stop d).1).1 = Except.error PyError.timeoutError := by
  refine ⟨?_, rfl, rfl⟩
  simp only [start_noPublish] at h
  split at h
  · exact Except.noConfusion h
  · injection h with h2
    subst h2
    rfl

/-- Witness for C2's amended statement at a concrete occupied driver. -/
theorem start_preserves_slot_stop_clears_witness :
    (⟨2, 5, true, some ⟨9, 9, 9, 1, 1, 1, 1, 1, 1, 0⟩⟩ : Driver).latest_reading =
      (⟨2, 5, false, some ⟨9, 9, 9, 1, 1, 1, 1, 1, 1, 0⟩⟩ : Driver).latest_reading ∧
    (stop ⟨2, 5, false, some ⟨9, 9, 9, 1, 1, 1, 1, 1, 1, 0⟩⟩).1.latest_reading = none ∧
    (start_noPublish (stop ⟨2, 5, false, some ⟨9, 9, 9, 1, 1, 1, 1, 1, 1, 0⟩⟩).1).1 =
      Except.error PyError.timeoutError :=
  start_preserves_slot_stop_clears ⟨2, 5, false, some ⟨9, 9, 9, 1, 1, 1, 1, 1, 1, 0⟩⟩
    ⟨2, 5, true, some ⟨9, 9, 9, 1, 1, 1, 1, 1, 1, 0⟩⟩ rfl

/-! ## C3 — receive timeouts in the read loop -/

/-- C3 counterexample: after two consecutive receive timeouts followed by a
valid 36-byte packet, the loop has sent zero datagrams — not the two
restart-stream commands the claim requires — although the eventual valid
reading is still published. -/
theorem timeout_no_resend_cex :
    (readLoop true ⟨none, []⟩
      [RecvEvent.timeout, RecvEvent.timeout,
        RecvEvent.packet (List.replicate 36 0) 0]).sent = [] ∧
    (0 : Nat) ≠ 2 ∧
    (readLoop true ⟨none, []⟩
      [RecvEvent.timeout, RecvEvent.timeout,
        RecvEvent.packet (List.replicate 36 0) 0]).latest_reading =
      some ⟨0, 0, 0, 0, 0, 0, 0, 0, 0, 0⟩ := by
  refine ⟨rfl, by decide, rfl⟩

/-- C3 amended: a receive timeout makes the loop silently continue — it sends
nothing and neither terminates nor raises — so after any number of
consecutive timeouts the loop has sent no datagram, and a subsequent valid
36-byte packet is still decoded and published into the slot. -/
theorem timeout_continue_publishes (n : Nat) (s : LoopState) (buf : List Nat)
    (dt : ℚ) (h36 : buf.length = 36) :
    (readLoop true s
      (List.replicate n RecvEvent.timeout ++ [RecvEvent.packet buf dt])).sent = s.sent ∧
    (readLoop true s
      (List.replicate n RecvEvent.timeout ++ [RecvEvent.packet buf dt])).latest_reading =
      decodePacket buf dt ∧
    decodePacket buf dt ≠ none := by
  rw [readLoop_replicate_timeout]
  have hd : decodePacket buf dt ≠ none := by simp [decodePacket, h36]
  cases hdec : decodePacket buf dt with
  | none => exact absurd hdec hd
  | some r =>
    exact ⟨by simp [readLoop, readLoopIter, hdec],
      by simp [readLoop, readLoopIter, hdec], by simp⟩

/-- Witness for C3's amended statement: two timeouts, then a valid packet. -/
theorem timeout_continue_publishes_witness :
    (readLoop true ⟨none, []⟩ (List.replicate 2 RecvEvent.timeout ++
      [RecvEvent.packet (List.replicate 36 1) 0])).sent = (⟨none, []⟩ : LoopState).sent ∧
    (readLoop true ⟨none, []⟩ (List.replicate 2 RecvEvent.timeout ++
      [RecvEvent.packet (List.replicate 36 1) 0])).latest_reading =
      decodePacket (List.replicate 36 1) 0 ∧
    decodePacket (List.replicate 36 1) 0 ≠ none :=
  timeout_continue_publishes 2 ⟨none, []⟩ (List.replicate 36 1) 0 (by decide)

/-! ## C7 — the command datagram -/

/-- C7: for every command code below `2 ^ 16` and sample count below `2 ^ 32`
(the ranges `struct.pack('!HHI', ...)` accepts), the command datagram is
exactly 8 bytes, each a valid byte, and its bytes recompose big-endian to the
constant header `0x1234`, the command code and the sample count in that
order; the driver's `start` sends command `0x0002` with sample count 0 and
its `stop` sends command `0x0000`. -/
theorem command_datagram_layout (cmd sc : Nat) (hc : cmd < 65536)
    (hs : sc < 4294967296) :
    (send_command cmd sc).length = 8 ∧
    (∀ b ∈ send_command cmd sc, b < 256) ∧
    (∀ b0 b1 b2 b3 b4 b5 b6 b7 : Nat,
      send_command cmd sc = [b0, b1, b2, b3, b4, b5, b6, b7] →
      beU16 b0 b1 = 0x1234 ∧ beU16 b2 b3 = cmd ∧ beU32 b4 b5 b6 b7 = sc) ∧
    (∀ d : Driver, Action.send 2 0 ∈ (start_noPublish d).2) ∧
    (∀ d : Driver, Action.send 0 0 ∈ (stop d).2) := by
  refine ⟨rfl, ?_, ?_, ?_, ?_⟩
  · intro b hb
    simp only [send_command, packHHI, beBytes16, beBytes32, List.cons_append,
      List.nil_append, List.mem_cons, List.not_mem_nil, or_false] at hb
    rcases hb with h | h | h | h | h | h | h | h <;> subst h <;> omega
  · intro b0 b1 b2 b3 b4 b5 b6 b7 h
    simp only [send_command, packHHI, beBytes16, beBytes32, List.cons_append,
      List.nil_append, List.cons.injEq, and_true] at h
    obtain ⟨h0, h1, h2, h3, h4, h5, h6, h7⟩ := h
    subst h0 h1 h2 h3 h4 h5 h6 h7
    refine ⟨?_, ?_, ?_⟩ <;> simp only [beU16, beU32] <;> omega
  · intro d
    show Action.send 2 0 ∈ [Action.setRunning true, Action.send 2 0, Action.spawnThread]
    decide
  · intro d
    show Action.send 0 0 ∈
      [Action.setRunning false, Action.send 0 0, Action.joinThread, Action.clearSlot]
    decide

/-- Witness for C7 at the start-streaming command `(0x0002, 0)`. -/
theorem command_datagram_layout_witness :
    (send_command 2 0).length = 8 ∧
    (beU16 18 52 = 0x1234 ∧ beU16 0 2 = 2 ∧ beU32 0 0 0 0 = 0) :=
  ⟨(command_datagram_layout 2 0 (by decide) (by decide)).1,
   (command_datagram_layout 2 0 (by decide) (by decide)).2.2.1
     18 52 0 2 0 0 0 0 rfl⟩

/-! ## C10 — zero divisors in the two accessors -/

/-- C10: with a reading present, a zero force or torque divisor makes
`get_latest_reading` return the stored raw integer reading unchanged (the
Python truthiness check on `calcpf and calcpt` fails), while
`get_latest_wrench` divides unconditionally and fails with
`ZeroDivisionError`; with strictly positive divisors both accessors succeed
and the six scaled components of `get_latest_wrench` are exactly those of
`get_latest_reading`'s scaled dictionary. -/
theorem zero_divisor_raw_vs_wrench (pf pt : Int) (run : Bool) (r : RawReading) :
    ((pf = 0 ∨ pt = 0) →
      get_latest_reading ⟨pf, pt, run, some r⟩ = Except.ok (some (RLResult.raw r)) ∧
      get_latest_wrench ⟨pf, pt, run, some r⟩ = Except.error PyError.zeroDivisionError) ∧
    (0 < pf → 0 < pt →
      get_latest_reading ⟨pf, pt, run, some r⟩ =
        Except.ok (some (RLResult.scaled (scaleReading pf pt r))) ∧
      get_latest_wrench ⟨pf, pt, run, some r⟩ =
        Except.ok (some [(scaleReading pf pt r).Fx, (scaleReading pf pt r).Fy,
          (scaleReading pf pt r).Fz, (scaleReading pf pt r).Tx,
          (scaleReading pf pt r).Ty, (scaleReading pf pt r).Tz])) := by
  constructor
  · intro h
    constructor
    · have hnot : ¬(pf ≠ 0 ∧ pt ≠ 0) := by
        rcases h with h | h <;> simp [h]
      simp [get_latest_reading, hnot]
    · rcases h with h | h
      · simp [get_latest_wrench, pyDiv, h, Except.bind]
      · by_cases hpf : pf = 0
        · simp [get_latest_wrench, pyDiv, hpf, Except.bind]
        · simp [get_latest_wrench, pyDiv, hpf, h, Except.bind]
  · intro h1 h2
    have hpf : pf ≠ 0 := by omega
    have hpt : pt ≠ 0 := by omega
    constructor
    · simp [get_latest_reading, hpf, hpt]
    · simp [get_latest_wrench, pyDiv, hpf, hpt, scaleReading, Except.bind]

/-- Witness for C10 with divisors `(0, 5)` (raw reading, wrench fails) and
`(2, 5)` (both scaled and equal). -/
theorem zero_divisor_raw_vs_wrench_witness :
    (get_latest_reading ⟨0, 5, true, some ⟨1, 2, 3, 4, 0, 0, 10, 0, 0, 0⟩⟩ =
      Except.ok (some (RLResult.raw ⟨1, 2, 3, 4, 0, 0, 10, 0, 0, 0⟩)) ∧
     get_latest_wrench ⟨0, 5, true, some ⟨1, 2, 3, 4, 0, 0, 10, 0, 0, 0⟩⟩ =
      Except.error PyError.zeroDivisionError) ∧
    (get_latest_reading ⟨2, 5, true, some ⟨1, 2, 3, 4, 0, 0, 10, 0, 0, 0⟩⟩ =
      Except.ok (some (RLResult.scaled (scaleReading 2 5 ⟨1, 2, 3, 4, 0, 0, 10, 0, 0, 0⟩))) ∧
     get_latest_wrench ⟨2, 5, true, some ⟨1, 2, 3, 4, 0, 0, 10, 0, 0, 0⟩⟩ =
      Except.ok (some [(scaleReading 2 5 ⟨1, 2, 3, 4, 0, 0, 10, 0, 0, 0⟩).Fx,
        (scaleReading 2 5 ⟨1, 2, 3, 4, 0, 0, 10, 0, 0, 0⟩).Fy,
        (scaleReading 2 5 ⟨1, 2, 3, 4, 0, 0, 10, 0, 0, 0⟩).Fz,
        (scaleReading 2 5 ⟨1, 2, 3, 4, 0, 0, 10, 0, 0, 0⟩).Tx,
        (scaleReading 2 5 ⟨1, 2, 3, 4, 0, 0, 10, 0, 0, 0⟩).Ty,
        (scaleReading 2 5 ⟨1, 2, 3, 4, 0, 0, 10, 0, 0, 0⟩).Tz])) :=
  ⟨(zero_divisor_raw_vs_wrench 0 5 true ⟨1, 2, 3, 4, 0, 0, 10, 0, 0, 0⟩).1 (Or.inl rfl),
   (zero_divisor_raw_vs_wrench 2 5 true ⟨1, 2, 3, 4, 0, 0, 10, 0, 0, 0⟩).2
     (by decide) (by decide)⟩

/-! ## C1 — decoding and scaling of a 36-byte telemetry packet -/

/-- C1: every received 36-byte buffer is decoded into a reading `r` that the
loop publishes into the slot, the buffer is exactly the big-endian
serialization of `r`'s nine 32-bit fields in the fixed order `rdt_sequence,
ft_sequence, status` (unsigned) then `Fx..Tz` (signed two's complement), and
with nonzero divisors `get_latest_reading` exposes the three force components
divided by `calcpf` and the three torque components divided by `calcpt`. -/
theorem decode_bigEndian_scale (buf : List Nat) (dt : ℚ) (pf pt : Int)
    (s : LoopState) (h36 : buf.length = 36) (hb : ∀ b ∈ buf, b < 256)
    (hpf : pf ≠ 0) (hpt : pt ≠ 0) :
    ∃ r : RawReading,
      decodePacket buf dt = some r ∧
      (readLoopIter s (RecvEvent.packet buf dt)).latest_reading = some r ∧
      r.delta_t = dt ∧
      encodeTelemetry r.rdt_sequence r.ft_sequence r.status
        r.Fx r.Fy r.Fz r.Tx r.Ty r.Tz = buf ∧
      get_latest_reading ⟨pf, pt, true, some r⟩ =
        Except.ok (some (RLResult.scaled
          { rdt_sequence := r.rdt_sequence
            ft_sequence := r.ft_sequence
            status := r.status
            Fx := (r.Fx : ℚ) / (pf : ℚ)
            Fy := (r.Fy : ℚ) / (pf : ℚ)
            Fz := (r.Fz : ℚ) / (pf : ℚ)
            Tx := (r.Tx : ℚ) / (pt : ℚ)
            Ty := (r.Ty : ℚ) / (pt : ℚ)
            Tz := (r.Tz : ℚ) / (pt : ℚ)
            delta_t := r.delta_t })) := by
  obtain ⟨b0, buf, rfl, h35⟩ := exists_cons_of_len buf 35 h36
  obtain ⟨b1, buf, rfl, h34⟩ := exists_cons_of_len buf 34 h35
  obtain ⟨b2, buf, rfl, h33⟩ := exists_cons_of_len buf 33 h34
  obtain ⟨b3, buf, rfl, h32⟩ := exists_cons_of_len buf 32 h33
  obtain ⟨b4, buf, rfl, h31⟩ := exists_cons_of_len buf 31 h32
  obtain ⟨b5, buf, rfl, h30⟩ := exists_cons_of_len buf 30 h31
  obtain ⟨b6, buf, rfl, h29⟩ := exists_cons_of_len buf 29 h30
  obtain ⟨b7, buf, rfl, h28⟩ := exists_cons_of_len buf 28 h29
  obtain ⟨b8, buf, rfl, h27⟩ := exists_cons_of_len buf 27 h28
  obtain ⟨b9, buf, rfl, h26⟩ := exists_cons_of_len buf 26 h27
  obtain ⟨b10, buf, rfl, h25⟩ := exists_cons_of_len buf 25 h26
  obtain ⟨b11, buf, rfl, h24⟩ := exists_cons_of_len buf 24 h25
  obtain ⟨b12, buf, rfl, h23⟩ := exists_cons_of_len buf 23 h24
  obtain ⟨b13, buf, rfl, h22⟩ := exists_cons_of_len buf 22 h23
  obtain ⟨b14, buf, rfl, h21⟩ := exists_cons_of_len buf 21 h22
  obtain ⟨b15, buf, rfl, h20⟩ := exists_cons_of_len buf 20 h21
  obtain ⟨b16, buf, rfl, h19⟩ := exists_cons_of_len buf 19 h20
  obtain ⟨b17, buf, rfl, h18⟩ := exists_cons_of_len buf 18 h19
  obtain ⟨b18, buf, rfl, h17⟩ := exists_cons_of_len buf 17 h18
  obtain ⟨b19, buf, rfl, h16⟩ := exists_cons_of_len buf 16 h17
  obtain ⟨b20, buf, rfl, h15⟩ := exists_cons_of_len buf 15 h16
  obtain ⟨b21, buf, rfl, h14⟩ := exists_cons_of_len buf 14 h15
  obtain ⟨b22, buf, rfl, h13⟩ := exists_cons_of_len buf 13 h14
  obtain ⟨b23, buf, rfl, h12⟩ := exists_cons_of_len buf 12 h13
  obtain ⟨b24, buf, rfl, h11⟩ := exists_cons_of_len buf 11 h12
  obtain ⟨b25, buf, rfl, h10⟩ := exists_cons_of_len buf 10 h11
  obtain ⟨b26, buf, rfl, h9⟩ := exists_cons_of_len buf 9 h10
  obtain ⟨b27, buf, rfl, h8⟩ := exists_cons_of_len buf 8 h9
  obtain ⟨b28, buf, rfl, h7⟩ := exists_cons_of_len buf 7 h8
  obtain ⟨b29, buf, rfl, h6⟩ := exists_cons_of_len buf 6 h7
  obtain ⟨b30, buf, rfl, h5⟩ := exists_cons_of_len buf 5 h6
  obtain ⟨b31, buf, rfl, h4⟩ := exists_cons_of_len buf 4 h5
  obtain ⟨b32, buf, rfl, h3⟩ := exists_cons_of_len buf 3 h4
  obtain ⟨b33, buf, rfl, h2⟩ := exists_cons_of_len buf 2 h3
  obtain ⟨b34, buf, rfl, h1⟩ := exists_cons_of_len buf 1 h2
  obtain ⟨b35, buf, rfl, h0⟩ := exists_cons_of_len buf 0 h1
  obtain rfl : buf = [] := List.length_eq_zero.mp h0
  simp only [List.mem_cons, List.not_mem_nil, or_false, forall_eq_or_imp,
    forall_eq] at hb
  obtain ⟨B0, B1, B2, B3, B4, B5, B6, B7, B8, B9, B10, B11, B12, B13, B14,
    B15, B16, B17, B18, B19, B20, B21, B22, B23, B24, B25, B26, B27, B28,
    B29, B30, B31, B32, B33, B34, B35⟩ := hb
  refine ⟨⟨beU32 b0 b1 b2 b3, beU32 b4 b5 b6 b7, beU32 b8 b9 b10 b11,
    toI32 (beU32 b12 b13 b14 b15), toI32 (beU32 b16 b17 b18 b19),
    toI32 (beU32 b20 b21 b22 b23), toI32 (beU32 b24 b25 b26 b27),
    toI32 (beU32 b28 b29 b30 b31), toI32 (beU32 b32 b33 b34 b35), dt⟩,
    ?_, ?_, rfl, ?_, ?_⟩
  · rfl
  · rfl
  · show encodeTelemetry (beU32 b0 b1 b2 b3) (beU32 b4 b5 b6 b7)
      (beU32 b8 b9 b10 b11) (toI32 (beU32 b12 b13 b14 b15))
      (toI32 (beU32 b16 b17 b18 b19)) (toI32 (beU32 b20 b21 b22 b23))
      (toI32 (beU32 b24 b25 b26 b27)) (toI32 (beU32 b28 b29 b30 b31))
      (toI32 (beU32 b32 b33 b34 b35)) = _
    unfold encodeTelemetry
    rw [beBytes32_beU32 b0 b1 b2 b3 B0 B1 B2 B3,
      beBytes32_beU32 b4 b5 b6 b7 B4 B5 B6 B7,
      beBytes32_beU32 b8 b9 b10 b11 B8 B9 B10 B11,
      i32bytes_toI32 _ (beU32_lt b12 b13 b14 b15 B12 B13 B14 B15),
      beBytes32_beU32 b12 b13 b14 b15 B12 B13 B14 B15,
      i32bytes_toI32 _ (beU32_lt b16 b17 b18 b19 B16 B17 B18 B19),
      beBytes32_beU32 b16 b17 b18 b19 B16 B17 B18 B19,
      i32bytes_toI32 _ (beU32_lt b20 b21 b22 b23 B20 B21 B22 B23),
      beBytes32_beU32 b20 b21 b22 b23 B20 B21 B22 B23,
      i32bytes_toI32 _ (beU32_lt b24 b25 b26 b27 B24 B25 B26 B27),
      beBytes32_beU32 b24 b25 b26 b27 B24 B25 B26 B27,
      i32bytes_toI32 _ (beU32_lt b28 b29 b30 b31 B28 B29 B30 B31),
      beBytes32_beU32 b28 b29 b30 b31 B28 B29 B30 B31,
      i32bytes_toI32 _ (beU32_lt b32 b33 b34 b35 B32 B33 B34 B35),
      beBytes32_beU32 b32 b33 b34 b35 B32 B33 B34 B35]
    rfl
  · simp [get_latest_reading, hpf, hpt, scaleReading]

/-- Witness for C1, the spec's scenario: `calcpf = 1000000`,
`calcpt = 10000000`, raw `Fx = 500000` scales to `1/2` and raw
`Tx = 20000000` scales to `2`. -/
theorem decode_bigEndian_scale_witness :
    decodePacket [0, 0, 0, 7, 0, 0, 0, 9, 0, 0, 0, 0, 0, 7, 161, 32,
      0, 0, 0, 0, 0, 0, 0, 0, 1, 49, 45, 0, 0, 0, 0, 0, 0, 0, 0, 0] 0 =
      some ⟨7, 9, 0, 500000, 0, 0, 20000000, 0, 0, 0⟩ ∧
    get_latest_reading
      ⟨1000000, 10000000, true, some ⟨7, 9, 0, 500000, 0, 0, 20000000, 0, 0, 0⟩⟩ =
      Except.ok (some (RLResult.scaled ⟨7, 9, 0, 1/2, 0, 0, 2, 0, 0, 0⟩)) := by
  obtain ⟨r, h1, h2, h3, h4, h5⟩ :=
    decode_bigEndian_scale
      [0, 0, 0, 7, 0, 0, 0, 9, 0, 0, 0, 0, 0, 7, 161, 32,
        0, 0, 0, 0, 0, 0, 0, 0, 1, 49, 45, 0, 0, 0, 0, 0, 0, 0, 0, 0] 0
      1000000 10000000 ⟨none, []⟩ (by decide) (by decide) (by decide) (by decide)
  have h1' : decodePacket [0, 0, 0, 7, 0, 0, 0, 9, 0, 0, 0, 0, 0, 7, 161, 32,
      0, 0, 0, 0, 0, 0, 0, 0, 1, 49, 45, 0, 0, 0, 0, 0, 0, 0, 0, 0] 0 =
      some ⟨7, 9, 0, 500000, 0, 0, 20000000, 0, 0, 0⟩ := by decide
  have hr : r = ⟨7, 9, 0, 500000, 0, 0, 20000000, 0, 0, 0⟩ := by
    rw [h1] at h1'
    exact Option.some.inj h1'
  subst hr
  refine ⟨h1, ?_⟩
  rw [h5]
  norm_num [Except.ok.injEq, Option.some.injEq, RLResult.scaled.injEq,
    ScaledReading.mk.injEq]

end AtiAxia
